import Mathlib

/-!
Verification development for the ESP32-S3 Safe Mode Flasher firmware
(`src/main.cpp`).

The firmware is shallowly embedded: the global counters become an explicit
`Globals` record threaded through the functions, and every hardware or
serial call becomes an element of an event trace (`Ev`).  The platform
macro `GPIO_IS_VALID_GPIO` comes from the ESP-IDF SDK, not from this
repository, so validity is modelled as an abstract predicate
`v : Int → Bool` that every theorem quantifies over.
-/

/-- `#define LOG_LEVEL 2` (0=Quiet, 1=Normal, 2=Verbose). -/
def LOG_LEVEL : Nat := 2

/-- `#define SAFETY_DELAY_MS 10`. -/
def SAFETY_DELAY_MS : Nat := 10

/-- `CRITICAL_PINS` array, including the `-1` end marker. -/
def CRITICAL_PINS : List Int :=
  [22, 23, 24, 25, 26, 27, 28, 29, 30, 31, 32,
   33, 34, 35, 36, 37, 38, 39,
   -1]

/-- `USB_UART_PINS` array, including the `-1` end marker. -/
def USB_UART_PINS : List Int :=
  [43, 44, 45, 46, 19, 18, -1]

/-- `PULLUP_PINS` array, including the `-1` end marker. -/
def PULLUP_PINS : List Int :=
  [0, -1]

/-- The global mutable state of the firmware: the three run counters and
the verbosity flag, with their initial values given by `initGlobals`. -/
@[ext]
structure Globals where
  safePins : Nat
  skippedPins : Nat
  specialPins : Nat
  verboseMode : Bool
deriving DecidableEq, Repr

/-- Initial values of the globals (`int safePins = 0;` etc.,
`bool verboseMode = true;`). -/
def initGlobals : Globals :=
  { safePins := 0, skippedPins := 0, specialPins := 0, verboseMode := true }

/-- Argument of `pinMode`: the firmware only ever uses `INPUT` and
`INPUT_PULLUP`. -/
inductive PinModeArg where
  | INPUT
  | INPUT_PULLUP
deriving DecidableEq, Repr

/-- Observable effects of the firmware: serial output, pin-hardware
configuration calls, delays, and peripheral shutdown calls.
`digitalWriteEv pin b` writes `HIGH` when `b = true` and `LOW` otherwise. -/
inductive Ev where
  | serialPrint (s : String)
  | serialPrintln (s : String)
  | pinModeEv (pin : Int) (mode : PinModeArg)
  | digitalWriteEv (pin : Int) (value : Bool)
  | delayEv (ms : Nat)
  | ledcDetachEv (pin : Int)
  | rmtUninstallEv (ch : Nat)
  | wireEndEv
  | spiEndEv
  | serial2EndEv
deriving DecidableEq, Repr

/-- The scan loop shared by `isCriticalPin`, `isUsbUartPin` and
`needsPullup`: walk the array until the `-1` end marker, returning
whether `pin` was found before it. -/
def pinListHas (pin : Int) : List Int → Bool
  | [] => false
  | x :: rest =>
      if x = -1 then false
      else if pin = x then true
      else pinListHas pin rest

/-- `bool isCriticalPin(int pin)`. -/
def isCriticalPin (pin : Int) : Bool :=
  pinListHas pin CRITICAL_PINS

/-- `bool isUsbUartPin(int pin)`. -/
def isUsbUartPin (pin : Int) : Bool :=
  pinListHas pin USB_UART_PINS

/-- `bool needsPullup(int pin)`. -/
def needsPullup (pin : Int) : Bool :=
  pinListHas pin PULLUP_PINS

/-- Rendering of the `%02d` conversion used by every per-pin log format:
zero-pad a pin number to width two. -/
def fmt02 (pin : Int) : String :=
  if pin < 0 then toString pin
  else if pin < 10 then "0" ++ toString pin
  else toString pin

/-- Rendering of the `%2d` conversion used by `showStatus`:
space-pad to width two. -/
def fmtSp2 (n : Nat) : String :=
  if n < 10 then " " ++ toString n else toString n

/-- `void logMessage(int level, const char* format, ...)`: prints the
formatted message iff `level <= LOG_LEVEL` (the format is rendered at
each call site).  Returns the emitted events. -/
def logMessage (level : Nat) (msg : String) : List Ev :=
  if LOG_LEVEL < level then [] else [Ev.serialPrintln msg]

/-- Loop body of `secureAllPins` for one pin: the classification branch
chain, the counter increment, and the emitted hardware/serial events.
`v` models the platform macro `GPIO_IS_VALID_GPIO` (ESP-IDF, outside this
repository). -/
def securePinBody (v : Int → Bool) (pin : Int) (g : Globals) :
    Globals × List Ev :=
  if !(v pin) then
    ({ g with skippedPins := g.skippedPins + 1 },
     logMessage 2 ("  Skip GPIO" ++ fmt02 pin ++ ": Invalid GPIO"))
  else if isCriticalPin pin then
    ({ g with skippedPins := g.skippedPins + 1 },
     logMessage 2 ("  Skip GPIO" ++ fmt02 pin ++ ": Critical system pin"))
  else if isUsbUartPin pin then
    ({ g with specialPins := g.specialPins + 1 },
     [Ev.pinModeEv pin PinModeArg.INPUT, Ev.digitalWriteEv pin false]
       ++ logMessage 2 ("  GPIO" ++ fmt02 pin ++ ": INPUT (USB/UART)")
       ++ [Ev.delayEv SAFETY_DELAY_MS])
  else if needsPullup pin then
    ({ g with specialPins := g.specialPins + 1 },
     [Ev.pinModeEv pin PinModeArg.INPUT_PULLUP]
       ++ logMessage 2 ("  GPIO" ++ fmt02 pin ++ ": INPUT_PULLUP")
       ++ [Ev.delayEv SAFETY_DELAY_MS])
  else
    ({ g with safePins := g.safePins + 1 },
     [Ev.pinModeEv pin PinModeArg.INPUT, Ev.digitalWriteEv pin false]
       ++ logMessage 2 ("  GPIO" ++ fmt02 pin ++ ": INPUT (High-Z)")
       ++ [Ev.delayEv SAFETY_DELAY_MS])

/-- The pin indices iterated by `for (int pin = 0; pin <= 48; pin++)`. -/
def pinRange : List Int :=
  (List.range 49).map (fun n => (n : Int))

/-- Fold of the `secureAllPins` loop over a list of pins, threading the
globals and accumulating the event trace. -/
def secureFold (v : Int → Bool) (l : List Int) (acc : Globals × List Ev) :
    Globals × List Ev :=
  l.foldl (fun acc pin =>
    let r := securePinBody v pin acc.1
    (r.1, acc.2 ++ r.2)) acc

/-- `void secureAllPins()`: banner, the loop over pins 0..48, footer. -/
def secureAllPins (v : Int → Bool) (g : Globals) : Globals × List Ev :=
  let start : Globals × List Ev :=
    (g, logMessage 1 "\n🔧 Securing GPIO pins...")
  let looped := secureFold v pinRange start
  (looped.1, looped.2 ++ logMessage 1 " All pins secured")

/-- Events of the loop body for one pin (the body's trace does not depend
on the incoming globals; see `securePinBody_snd`). -/
def securePinEvents (v : Int → Bool) (pin : Int) : List Ev :=
  (securePinBody v pin initGlobals).2

/-- Concatenation of the per-pin event traces over a pin list. -/
def concatEvents (v : Int → Bool) : List Int → List Ev
  | [] => []
  | p :: rest => securePinEvents v p ++ concatEvents v rest

/-- All events emitted by the loop of `secureAllPins`. -/
def secureLoopEvents (v : Int → Bool) : List Ev :=
  concatEvents v pinRange

/-- The five classification outcomes of the safing pass. -/
inductive Category where
  | Invalid
  | Critical
  | UsbUart
  | PullupRequired
  | Default
deriving DecidableEq, Repr

/-- The pin classifier: the guard chain of the `secureAllPins` loop body,
read off as a pure function (spec §4.1). -/
def classifyPin (v : Int → Bool) (pin : Int) : Category :=
  if !(v pin) then Category.Invalid
  else if isCriticalPin pin then Category.Critical
  else if isUsbUartPin pin then Category.UsbUart
  else if needsPullup pin then Category.PullupRequired
  else Category.Default

/-- The `pwmPins` array inside `disablePeripherals`. -/
def pwmPins : List Int :=
  [2, 4, 5, 12, 13, 14, 15, 18, 19, 21, 22, 23, 25, 26, 27, 32, 33]

/-- State of the on-chip peripherals: which pins have a PWM (LEDC)
channel attached, which RMT channels have a driver installed, and
whether the I2C / SPI / Serial2 controllers are active. -/
structure PeriphState where
  pwmAttached : List Int
  rmtInstalled : List Nat
  i2cActive : Bool
  spiActive : Bool
  serial2Active : Bool
deriving DecidableEq, Repr

/-- `ledcDetach(pin)`: detaches the PWM channel from `pin`; detaching a
pin with no channel attached is a no-op (the error is swallowed). -/
def ledcDetachOp (pin : Int) (s : PeriphState) : PeriphState :=
  { s with pwmAttached := s.pwmAttached.filter (fun x => x != pin) }

/-- `rmt_driver_uninstall(ch)`: uninstalls the RMT driver of channel
`ch`; the `ESP_ERR_INVALID_STATE` result for an uninstalled channel is
ignored by the caller, so the state transition is a no-op. -/
def rmtDriverUninstall (ch : Nat) (s : PeriphState) : PeriphState :=
  { s with rmtInstalled := s.rmtInstalled.filter (fun c => c != ch) }

/-- `Wire.end()`. -/
def wireEndOp (s : PeriphState) : PeriphState :=
  { s with i2cActive := false }

/-- `SPI.end()`. -/
def spiEndOp (s : PeriphState) : PeriphState :=
  { s with spiActive := false }

/-- `Serial2.end()`. -/
def serial2EndOp (s : PeriphState) : PeriphState :=
  { s with serial2Active := false }

/-- The event trace of `disablePeripherals`: every call is unconditional,
so the trace is a constant independent of the peripheral state. -/
def dpTrace : List Ev :=
  logMessage 1 "\n🔌 Disabling peripherals..."
    ++ pwmPins.map Ev.ledcDetachEv
    ++ logMessage 2 "  PWM detached"
    ++ (List.range 8).map Ev.rmtUninstallEv
    ++ logMessage 2 "  RMT controllers uninstalled"
    ++ [Ev.wireEndEv] ++ logMessage 2 "  I2C stopped"
    ++ [Ev.spiEndEv] ++ logMessage 2 "  SPI stopped"
    ++ [Ev.serial2EndEv] ++ logMessage 2 "  Serial2 stopped"
    ++ logMessage 1 " All peripherals disabled"

/-- `void disablePeripherals()`: detach PWM from the candidate pins,
uninstall RMT channels 0..7, stop I2C, SPI and Serial2. -/
def disablePeripherals (s : PeriphState) : PeriphState × List Ev :=
  let s1 := pwmPins.foldl (fun st p => ledcDetachOp p st) s
  let s2 := (List.range 8).foldl (fun st ch => rmtDriverUninstall ch st) s1
  let s3 := wireEndOp s2
  let s4 := spiEndOp s3
  let s5 := serial2EndOp s4
  (s5, dpTrace)

/-- `String(80, '=')`. -/
def eqLine : String := String.mk (List.replicate 80 '=')

/-- `void showStatus()`: renders the counters and the static guidance
text (read-only on the globals). -/
def showStatusEvents (g : Globals) : List Ev :=
  [Ev.serialPrintln ("\n" ++ eqLine),
   Ev.serialPrintln "ESP32-S3 SAFE MODE FLASHER",
   Ev.serialPrintln eqLine,
   Ev.serialPrint "\n STATUS SUMMARY:\n",
   Ev.serialPrint ("   Safe GPIO pins:    " ++ fmtSp2 g.safePins ++ "\n"),
   Ev.serialPrint ("   Special pins:      " ++ fmtSp2 g.specialPins ++ "\n"),
   Ev.serialPrint ("   Skipped pins:      " ++ fmtSp2 g.skippedPins ++ "\n"),
   Ev.serialPrint ("   Total pins:        "
     ++ fmtSp2 (g.safePins + g.specialPins + g.skippedPins) ++ "\n"),
   Ev.serialPrintln "\n CURRENT STATE:",
   Ev.serialPrintln "  • All GPIOs in high-impedance INPUT",
   Ev.serialPrintln "  • No pull-up/pull-down resistors active",
   Ev.serialPrintln "  • All peripherals (PWM/RMT/I2C/SPI) disabled",
   Ev.serialPrintln "  • System in low-power safe state",
   Ev.serialPrintln "\n NEXT STEPS:",
   Ev.serialPrintln "  1. Upload your main firmware",
   Ev.serialPrintln "  2. Press RESET button",
   Ev.serialPrintln "  3. Or power cycle the board",
   Ev.serialPrintln "\n  WARNING:",
   Ev.serialPrintln "  • GPIO0 must stay HIGH for normal boot",
   Ev.serialPrintln "  • Do not connect anything to USB pins (45,46)",
   Ev.serialPrintln "  • Critical pins (22-39) are untouched",
   Ev.serialPrintln eqLine,
   Ev.serialPrintln "System is READY for safe programming",
   Ev.serialPrintln (eqLine ++ "\n")]

/-- The `switch(cmd)` block of `loop()`: dispatch one console character,
returning the updated globals and the emitted serial output.
Unrecognized characters are ignored. -/
def commandSwitch (cmd : Char) (g : Globals) : Globals × List Ev :=
  match cmd with
  | 's' | 'S' => (g, showStatusEvents g)
  | 'v' | 'V' =>
      let g2 := { g with verboseMode := !g.verboseMode }
      (g2, [Ev.serialPrint ("\nVerbose mode: "
              ++ (if g2.verboseMode then "ON" else "OFF") ++ "\n")])
  | 'r' | 'R' =>
      (g, [Ev.serialPrintln "\n  Simulating reset...",
           Ev.serialPrintln "(In real hardware, press RESET button)"])
  | '?' | 'h' | 'H' =>
      (g, [Ev.serialPrintln "\n COMMANDS:",
           Ev.serialPrintln "  s - Show status",
           Ev.serialPrintln "  v - Toggle verbose mode",
           Ev.serialPrintln "  r - Reset reminder",
           Ev.serialPrintln "  h - This help"])
  | _ => (g, [])

/-- Does this event configure the hardware state of pin `p`
(a `pinMode` or `digitalWrite` call targeting `p`)? -/
def isConfigCallFor (p : Int) : Ev → Bool
  | Ev.pinModeEv q _ => q == p
  | Ev.digitalWriteEv q _ => q == p
  | _ => false

/-- Does this event touch any pin or peripheral hardware at all
(anything other than serial output and delays)? -/
def isHardwareCall : Ev → Bool
  | Ev.serialPrint _ => false
  | Ev.serialPrintln _ => false
  | Ev.delayEv _ => false
  | _ => true

/-- Extract the printed line of a `Serial.println` event. -/
def evPrintlnStr : Ev → Option String
  | Ev.serialPrintln s => some s
  | _ => none

/-- The log line the loop body emits for one pin (each branch emits
exactly one, since `LOG_LEVEL = 2`). -/
def securePinLogLine (v : Int → Bool) (pin : Int) : String :=
  if !(v pin) then "  Skip GPIO" ++ fmt02 pin ++ ": Invalid GPIO"
  else if isCriticalPin pin then
    "  Skip GPIO" ++ fmt02 pin ++ ": Critical system pin"
  else if isUsbUartPin pin then "  GPIO" ++ fmt02 pin ++ ": INPUT (USB/UART)"
  else if needsPullup pin then "  GPIO" ++ fmt02 pin ++ ": INPUT_PULLUP"
  else "  GPIO" ++ fmt02 pin ++ ": INPUT (High-Z)"

/-- Does the loop body increment `skippedPins` at this pin?
(invalid, or valid and critical). -/
def skipIncr (v : Int → Bool) (pin : Int) : Bool :=
  !(v pin) || isCriticalPin pin

/-- Does the loop body increment `specialPins` at this pin? -/
def specialIncr (v : Int → Bool) (pin : Int) : Bool :=
  v pin && !(isCriticalPin pin) && (isUsbUartPin pin || needsPullup pin)

/-- Does the loop body increment `safePins` at this pin? -/
def safeIncr (v : Int → Bool) (pin : Int) : Bool :=
  v pin && !(isCriticalPin pin) && !(isUsbUartPin pin) && !(needsPullup pin)

/-- Sum of the three run counters. -/
def countersTotal (g : Globals) : Nat :=
  g.safePins + g.specialPins + g.skippedPins

lemma securePinBody_snd (v : Int → Bool) (pin : Int) (g : Globals) :
    (securePinBody v pin g).2 = securePinEvents v pin := by
  unfold securePinEvents securePinBody
  split_ifs <;> rfl

lemma securePinBody_skipped (v : Int → Bool) (pin : Int) (g : Globals) :
    (securePinBody v pin g).1.skippedPins
      = g.skippedPins + (if skipIncr v pin then 1 else 0) := by
  unfold securePinBody skipIncr
  split_ifs with h1 h2 h3 h4 <;> simp_all

lemma securePinBody_special (v : Int → Bool) (pin : Int) (g : Globals) :
    (securePinBody v pin g).1.specialPins
      = g.specialPins + (if specialIncr v pin then 1 else 0) := by
  unfold securePinBody specialIncr
  split_ifs with h1 h2 h3 h4 <;> simp_all

lemma securePinBody_safe (v : Int → Bool) (pin : Int) (g : Globals) :
    (securePinBody v pin g).1.safePins
      = g.safePins + (if safeIncr v pin then 1 else 0) := by
  unfold securePinBody safeIncr
  split_ifs with h1 h2 h3 h4 <;> simp_all

lemma securePinBody_verbose (v : Int → Bool) (pin : Int) (g : Globals) :
    (securePinBody v pin g).1.verboseMode = g.verboseMode := by
  unfold securePinBody
  split_ifs <;> rfl

lemma securePinBody_total (v : Int → Bool) (pin : Int) (g : Globals) :
    countersTotal (securePinBody v pin g).1 = countersTotal g + 1 := by
  unfold countersTotal securePinBody
  split_ifs <;> simp <;> omega

lemma secureFold_nil (v : Int → Bool) (acc : Globals × List Ev) :
    secureFold v [] acc = acc := rfl

lemma secureFold_cons (v : Int → Bool) (p : Int) (l : List Int)
    (acc : Globals × List Ev) :
    secureFold v (p :: l) acc
      = secureFold v l
          ((securePinBody v p acc.1).1, acc.2 ++ (securePinBody v p acc.1).2) :=
  rfl

lemma secureFold_skipped (v : Int → Bool) : ∀ (l : List Int) (g : Globals)
    (es : List Ev),
    (secureFold v l (g, es)).1.skippedPins
      = g.skippedPins + l.countP (skipIncr v) := by
  intro l
  induction l with
  | nil => intro g es; simp [secureFold_nil]
  | cons p rest ih =>
      intro g es
      rw [secureFold_cons]
      simp only
      rw [ih, securePinBody_skipped, List.countP_cons]
      cases h : skipIncr v p <;> simp [h] <;> omega

lemma secureFold_special (v : Int → Bool) : ∀ (l : List Int) (g : Globals)
    (es : List Ev),
    (secureFold v l (g, es)).1.specialPins
      = g.specialPins + l.countP (specialIncr v) := by
  intro l
  induction l with
  | nil => intro g es; simp [secureFold_nil]
  | cons p rest ih =>
      intro g es
      rw [secureFold_cons]
      simp only
      rw [ih, securePinBody_special, List.countP_cons]
      cases h : specialIncr v p <;> simp [h] <;> omega

lemma secureFold_safe (v : Int → Bool) : ∀ (l : List Int) (g : Globals)
    (es : List Ev),
    (secureFold v l (g, es)).1.safePins
      = g.safePins + l.countP (safeIncr v) := by
  intro l
  induction l with
  | nil => intro g es; simp [secureFold_nil]
  | cons p rest ih =>
      intro g es
      rw [secureFold_cons]
      simp only
      rw [ih, securePinBody_safe, List.countP_cons]
      cases h : safeIncr v p <;> simp [h] <;> omega

lemma secureFold_total (v : Int → Bool) : ∀ (l : List Int) (g : Globals)
    (es : List Ev),
    countersTotal (secureFold v l (g, es)).1 = countersTotal g + l.length := by
  intro l
  induction l with
  | nil => intro g es; simp [secureFold_nil]
  | cons p rest ih =>
      intro g es
      rw [secureFold_cons]
      simp only
      rw [ih, securePinBody_total, List.length_cons]
      omega

lemma secureFold_snd (v : Int → Bool) : ∀ (l : List Int) (g : Globals)
    (es : List Ev),
    (secureFold v l (g, es)).2 = es ++ concatEvents v l := by
  intro l
  induction l with
  | nil => intro g es; simp [secureFold_nil, concatEvents]
  | cons p rest ih =>
      intro g es
      rw [secureFold_cons]
      simp only
      rw [ih, securePinBody_snd]
      simp [concatEvents]

lemma secureAllPins_fst (v : Int → Bool) (g : Globals) :
    (secureAllPins v g).1
      = { safePins := g.safePins + pinRange.countP (safeIncr v),
          skippedPins := g.skippedPins + pinRange.countP (skipIncr v),
          specialPins := g.specialPins + pinRange.countP (specialIncr v),
          verboseMode := g.verboseMode } := by
  have hverb : ∀ (l : List Int) (g : Globals) (es : List Ev),
      (secureFold v l (g, es)).1.verboseMode = g.verboseMode := by
    intro l
    induction l with
    | nil => intro g es; simp [secureFold_nil]
    | cons p rest ih =>
        intro g es
        rw [secureFold_cons]
        simp only
        rw [ih, securePinBody_verbose]
  unfold secureAllPins
  simp only
  apply Globals.ext
  · rw [secureFold_safe]
  · rw [secureFold_skipped]
  · rw [secureFold_special]
  · rw [hverb]

lemma secureAllPins_snd (v : Int → Bool) (g : Globals) :
    (secureAllPins v g).2
      = logMessage 1 "\n🔧 Securing GPIO pins..."
          ++ secureLoopEvents v
          ++ logMessage 1 " All pins secured" := by
  unfold secureAllPins
  simp only
  rw [secureFold_snd]
  simp [secureLoopEvents, List.append_assoc]

lemma isCriticalPin_eq (p : Int) : isCriticalPin p = true ↔ 22 ≤ p ∧ p ≤ 39 := by
  simp [isCriticalPin, CRITICAL_PINS, pinListHas]
  omega

lemma isUsbUartPin_eq (p : Int) :
    isUsbUartPin p = true
      ↔ p = 43 ∨ p = 44 ∨ p = 45 ∨ p = 46 ∨ p = 19 ∨ p = 18 := by
  simp [isUsbUartPin, USB_UART_PINS, pinListHas]

lemma needsPullup_eq (p : Int) : needsPullup p = true ↔ p = 0 := by
  simp [needsPullup, PULLUP_PINS, pinListHas]

lemma not_usb_of_critical (p : Int) (h : isCriticalPin p = true) :
    isUsbUartPin p = false := by
  rw [isCriticalPin_eq] at h
  cases hh : isUsbUartPin p
  · rfl
  · rcases (isUsbUartPin_eq p).mp hh with h1 | h1 | h1 | h1 | h1 | h1 <;> omega

lemma not_pullup_of_critical (p : Int) (h : isCriticalPin p = true) :
    needsPullup p = false := by
  rw [isCriticalPin_eq] at h
  cases hh : needsPullup p
  · rfl
  · have := (needsPullup_eq p).mp hh
    omega

lemma not_pullup_of_usb (p : Int) (h : isUsbUartPin p = true) :
    needsPullup p = false := by
  rcases (isUsbUartPin_eq p).mp h with h1 | h1 | h1 | h1 | h1 | h1 <;>
    (cases hh : needsPullup p
     · rfl
     · have := (needsPullup_eq p).mp hh
       omega)

/-- C1: for every pin index `p` in `[0, 48]`, the classification implemented
by the guard chain of the safing pass assigns exactly one of the five
categories: `Invalid` holds precisely on invalid indices, and — because the
three membership tables are pairwise disjoint — each of `Critical`,
`UsbUart`, `PullupRequired` holds precisely on the valid members of its
table, with `Default` covering exactly the valid pins in no table. -/
theorem classifyPin_partition (v : Int → Bool) (p : Int)
    (h0 : 0 ≤ p) (h1 : p ≤ 48) :
    (classifyPin v p = Category.Invalid ↔ v p = false)
    ∧ (classifyPin v p = Category.Critical
        ↔ (v p = true ∧ isCriticalPin p = true))
    ∧ (classifyPin v p = Category.UsbUart
        ↔ (v p = true ∧ isUsbUartPin p = true))
    ∧ (classifyPin v p = Category.PullupRequired
        ↔ (v p = true ∧ needsPullup p = true))
    ∧ (classifyPin v p = Category.Default
        ↔ (v p = true ∧ isCriticalPin p = false ∧ isUsbUartPin p = false
            ∧ needsPullup p = false)) := by
  cases hv : v p with
  | false => simp [classifyPin, hv]
  | true =>
      by_cases hc : isCriticalPin p = true
      · have hu := not_usb_of_critical p hc
        have hpu := not_pullup_of_critical p hc
        simp [classifyPin, hv, hc, hu, hpu]
      · have hc0 : isCriticalPin p = false := by
          cases h : isCriticalPin p
          · rfl
          · exact absurd h hc
        by_cases hu : isUsbUartPin p = true
        · have hpu := not_pullup_of_usb p hu
          simp [classifyPin, hv, hc0, hu, hpu]
        · have hu0 : isUsbUartPin p = false := by
            cases h : isUsbUartPin p
            · rfl
            · exact absurd h hu
          cases hpu : needsPullup p with
          | false => simp [classifyPin, hv, hc0, hu0, hpu]
          | true => simp [classifyPin, hv, hc0, hu0, hpu]

/-- Witness for `classifyPin_partition` at `v = (fun _ => true)`, `p = 22`. -/
theorem classifyPin_partition_witness :
    (0 : Int) ≤ 22 ∧ (22 : Int) ≤ 48
    ∧ (classifyPin (fun _ => true) 22 = Category.Critical
        ↔ ((fun _ : Int => true) 22 = true ∧ isCriticalPin 22 = true)) :=
  ⟨by decide, by decide,
   (classifyPin_partition (fun _ => true) 22 (by decide) (by decide)).2.1⟩

/-- C2: one safing pass from the zero-initialized counters visits the 49
indices 0..48 and, whatever the validity predicate, leaves
`safePins + specialPins + skippedPins = 49`; indeed every single loop
iteration grows the counter sum by exactly one. -/
theorem secure_counter_conservation (v : Int → Bool) :
    countersTotal (secureAllPins v initGlobals).1 = 49
    ∧ ∀ (pin : Int) (g : Globals),
        countersTotal (securePinBody v pin g).1 = countersTotal g + 1 := by
  constructor
  · unfold secureAllPins
    simp only
    rw [secureFold_total]
    have hlen : pinRange.length = 49 := by rfl
    rw [hlen]
    simp [countersTotal, initGlobals]
  · intro pin g
    exact securePinBody_total v pin g

lemma securePinEvents_no_config_critical (v : Int → Bool) (q p : Int)
    (hp : isCriticalPin p = true) :
    (securePinEvents v q).filter (isConfigCallFor p) = [] := by
  unfold securePinEvents securePinBody
  by_cases hq : q = p
  · subst hq
    cases hv : v q
    · simp [hv, logMessage, LOG_LEVEL, isConfigCallFor]
    · simp [hv, hp, logMessage, LOG_LEVEL, isConfigCallFor]
  · have hqp : (q == p) = false := by
      simp [hq]
    split_ifs <;>
      simp [logMessage, LOG_LEVEL, isConfigCallFor, hqp]

lemma concatEvents_no_config_critical (v : Int → Bool) (p : Int)
    (hp : isCriticalPin p = true) :
    ∀ l : List Int, (concatEvents v l).filter (isConfigCallFor p) = [] := by
  intro l
  induction l with
  | nil => simp [concatEvents]
  | cons q rest ih =>
      simp only [concatEvents, List.filter_append]
      rw [securePinEvents_no_config_critical v q p hp, ih]
      rfl

/-- C3: for every pin in the critical set, the safing pass issues no
`pinMode` or `digitalWrite` call targeting that pin; the loop body at a
critical pin only increments `skippedPins` and emits a single log line. -/
theorem secure_critical_non_interference (v : Int → Bool) (p : Int)
    (hp : isCriticalPin p = true) :
    ((secureAllPins v initGlobals).2.filter (isConfigCallFor p) = [])
    ∧ ∀ g : Globals,
        (securePinBody v p g).1 = { g with skippedPins := g.skippedPins + 1 }
        ∧ ∃ s, (securePinBody v p g).2 = [Ev.serialPrintln s] := by
  constructor
  · rw [secureAllPins_snd]
    rw [List.filter_append, List.filter_append]
    simp only [secureLoopEvents]
    rw [concatEvents_no_config_critical v p hp pinRange]
    simp [logMessage, LOG_LEVEL, isConfigCallFor]
  · intro g
    unfold securePinBody
    cases hv : v p
    · refine ⟨by simp [hv], ?_⟩
      exact ⟨"  Skip GPIO" ++ fmt02 p ++ ": Invalid GPIO",
             by simp [hv, logMessage, LOG_LEVEL]⟩
    · refine ⟨by simp [hv, hp], ?_⟩
      exact ⟨"  Skip GPIO" ++ fmt02 p ++ ": Critical system pin",
             by simp [hv, hp, logMessage, LOG_LEVEL]⟩

/-- Witness for `secure_critical_non_interference` at
`v = (fun _ => true)`, `p = 22`. -/
theorem secure_critical_non_interference_witness :
    isCriticalPin 22 = true
    ∧ (secureAllPins (fun _ => true) initGlobals).2.filter
        (isConfigCallFor 22) = [] :=
  ⟨by decide,
   (secure_critical_non_interference (fun _ => true) 22 (by decide)).1⟩

/-- Number of pin indices in 0..48 rejected by the validity predicate. -/
def invalidCount (v : Int → Bool) : Nat :=
  pinRange.countP (fun p => !(v p))

/-- Every pin of the three membership tables is a valid GPIO, i.e. the
chip's exclusion list is disjoint from `CRITICAL_PINS`, `USB_UART_PINS`
and `PULLUP_PINS`. -/
def tablesValid (v : Int → Bool) : Bool :=
  pinRange.all (fun p =>
    !(isCriticalPin p || isUsbUartPin p || needsPullup p) || v p)

lemma countP_or_disjoint {α : Type} (p q : α → Bool) :
    ∀ l : List α, (∀ x ∈ l, ¬(p x = true ∧ q x = true)) →
    l.countP (fun x => p x || q x) = l.countP p + l.countP q := by
  intro l
  induction l with
  | nil => intro _; simp
  | cons a as ih =>
      intro hdis
      have hd := hdis a (by simp)
      have htl : ∀ x ∈ as, ¬(p x = true ∧ q x = true) := by
        intro x hx
        exact hdis x (by simp [hx])
      rw [List.countP_cons, List.countP_cons, List.countP_cons, ih htl]
      cases hp : p a <;> cases hq : q a
      · simp [hp, hq]
      · simp [hp, hq]
        omega
      · simp [hp, hq]
        omega
      · exact absurd ⟨hp, hq⟩ hd

/-- C4 counterexample: the claimed formula `skippedPins = |invalid| + 18`
fails when the chip's exclusion list overlaps the critical table.  With
pin 22 (a `CRITICAL_PINS` member) as the sole invalid index, the pass
skips 18 pins (1 invalid + 17 remaining critical), not `1 + 18 = 19`:
the invalid check precedes the critical check, so an invalid critical pin
is counted once, not twice. -/
theorem secure_profile_counts_cex :
    (secureAllPins (fun p => p != 22) initGlobals).1.skippedPins
      ≠ invalidCount (fun p => p != 22) + 18 := by
  rw [secureAllPins_fst]
  simp only [initGlobals]
  decide

/-- C4 amended: for the chip profile of the source tables, and provided
the chip's exclusion list is disjoint from the three membership tables,
one safing pass from zero counters yields
`skippedPins = invalidCount + 18`, `specialPins = 7`, and
`safePins = 49 − skippedPins − specialPins`. -/
theorem secure_profile_counts (v : Int → Bool) (h : tablesValid v = true) :
    (secureAllPins v initGlobals).1.skippedPins = invalidCount v + 18
    ∧ (secureAllPins v initGlobals).1.specialPins = 7
    ∧ (secureAllPins v initGlobals).1.safePins
        = 49 - (secureAllPins v initGlobals).1.skippedPins
            - (secureAllPins v initGlobals).1.specialPins := by
  have hmem : ∀ p ∈ pinRange,
      (isCriticalPin p || isUsbUartPin p || needsPullup p) = true →
      v p = true := by
    intro p hp htab
    have h' := List.all_eq_true.mp h p hp
    simp only [htab] at h'
    simpa using h'
  have hskip : (secureAllPins v initGlobals).1.skippedPins
      = invalidCount v + 18 := by
    rw [secureAllPins_fst]
    simp only [initGlobals, Nat.zero_add]
    have hdis : ∀ x ∈ pinRange, ¬((!(v x)) = true ∧ isCriticalPin x = true) := by
      intro x hx hcon
      have hv : v x = true := hmem x hx (by simp [hcon.2])
      rw [hv] at hcon
      simp at hcon
    have hsplit : pinRange.countP (skipIncr v)
        = pinRange.countP (fun x => !(v x)) + pinRange.countP isCriticalPin := by
      have := countP_or_disjoint (fun x => !(v x)) isCriticalPin pinRange hdis
      simpa [skipIncr] using this
    rw [hsplit]
    have hcrit : pinRange.countP isCriticalPin = 18 := by decide
    rw [hcrit]
    rfl
  have hspec : (secureAllPins v initGlobals).1.specialPins = 7 := by
    rw [secureAllPins_fst]
    simp only [initGlobals, Nat.zero_add]
    have hcong : ∀ x ∈ pinRange,
        specialIncr v x ↔ (isUsbUartPin x || needsPullup x) = true := by
      intro x hx
      unfold specialIncr
      by_cases husb : (isUsbUartPin x || needsPullup x) = true
      · have hv : v x = true := hmem x hx (by
          rcases Bool.or_eq_true_iff.mp husb with h1 | h1 <;> simp [h1])
        have hc : isCriticalPin x = false := by
          cases h1 : isCriticalPin x
          · rfl
          · rcases Bool.or_eq_true_iff.mp husb with h2 | h2
            · rw [not_usb_of_critical x h1] at h2
              exact absurd h2 (by simp)
            · rw [not_pullup_of_critical x h1] at h2
              exact absurd h2 (by simp)
        simp [hv, hc, husb]
      · have husb' : (isUsbUartPin x || needsPullup x) = false := by
          cases h1 : (isUsbUartPin x || needsPullup x)
          · rfl
          · exact absurd h1 husb
        simp [husb']
    rw [List.countP_congr hcong]
    decide
  refine ⟨hskip, hspec, ?_⟩
  have htot : countersTotal (secureAllPins v initGlobals).1 = 49 := by
    unfold secureAllPins
    simp only
    rw [secureFold_total]
    have hlen : pinRange.length = 49 := by rfl
    rw [hlen]
    simp [countersTotal, initGlobals]
  unfold countersTotal at htot
  omega

/-- Witness for `secure_profile_counts` at the validity predicate whose
sole invalid index is pin 47 (not a table member): 19 skipped, 7 special,
23 safe. -/
theorem secure_profile_counts_witness :
    tablesValid (fun p => p != 47) = true
    ∧ ((secureAllPins (fun p => p != 47) initGlobals).1.skippedPins
          = invalidCount (fun p => p != 47) + 18
        ∧ (secureAllPins (fun p => p != 47) initGlobals).1.specialPins = 7
        ∧ (secureAllPins (fun p => p != 47) initGlobals).1.safePins
            = 49 - (secureAllPins (fun p => p != 47) initGlobals).1.skippedPins
                - (secureAllPins (fun p => p != 47) initGlobals).1.specialPins) :=
  ⟨by decide, secure_profile_counts (fun p => p != 47) (by decide)⟩

lemma foldl_ledcDetach (ps : List Int) : ∀ s : PeriphState,
    ps.foldl (fun st p => ledcDetachOp p st) s
      = { s with pwmAttached :=
            s.pwmAttached.filter (fun x => !(ps.contains x)) } := by
  induction ps with
  | nil =>
      intro s
      simp [List.filter_true]
  | cons p ps ih =>
      intro s
      rw [List.foldl_cons, ih]
      unfold ledcDetachOp
      simp only
      congr 1
      rw [List.filter_filter]
      apply List.filter_congr
      intro x _
      by_cases hxp : x = p <;> by_cases hps : x ∈ ps <;>
        simp [hxp, hps]

lemma foldl_rmtUninstall (cs : List Nat) : ∀ s : PeriphState,
    cs.foldl (fun st ch => rmtDriverUninstall ch st) s
      = { s with rmtInstalled :=
            s.rmtInstalled.filter (fun x => !(cs.contains x)) } := by
  induction cs with
  | nil =>
      intro s
      simp [List.filter_true]
  | cons c cs ih =>
      intro s
      rw [List.foldl_cons, ih]
      unfold rmtDriverUninstall
      simp only
      congr 1
      rw [List.filter_filter]
      apply List.filter_congr
      intro x _
      by_cases hxc : x = c <;> by_cases hcs : x ∈ cs <;>
        simp [hxc, hcs]

lemma disablePeripherals_fst (s : PeriphState) :
    (disablePeripherals s).1
      = { pwmAttached := s.pwmAttached.filter (fun x => !(pwmPins.contains x)),
          rmtInstalled := s.rmtInstalled.filter
            (fun x => !((List.range 8).contains x)),
          i2cActive := false, spiActive := false, serial2Active := false } := by
  unfold disablePeripherals
  simp only
  rw [foldl_ledcDetach, foldl_rmtUninstall]
  rfl

lemma filter_self_idem {α : Type} (p : α → Bool) (l : List α) :
    (l.filter p).filter p = l.filter p := by
  rw [List.filter_filter]
  apply List.filter_congr
  intro x _
  cases h : p x <;> simp [h]

lemma disablePeripherals_snd (s : PeriphState) :
    (disablePeripherals s).2 = dpTrace := rfl

/-- C5: peripheral shutdown is idempotent.  Running `disablePeripherals`
twice from any peripheral state yields the same final state as running it
once, and the second run performs exactly the same (error-free) call
sequence: detaching or uninstalling an already-inactive peripheral is a
no-op whose platform error code the firmware ignores. -/
theorem disablePeripherals_idempotent (s : PeriphState) :
    (disablePeripherals (disablePeripherals s).1).1 = (disablePeripherals s).1
    ∧ (disablePeripherals (disablePeripherals s).1).2
        = (disablePeripherals s).2 := by
  refine ⟨?_, by rw [disablePeripherals_snd, disablePeripherals_snd]⟩
  rw [disablePeripherals_fst s, disablePeripherals_fst]
  dsimp only
  rw [filter_self_idem, filter_self_idem]

set_option maxHeartbeats 1600000 in
/-- C9: every run of `disablePeripherals` issues `ledcDetach` calls for
pins 22, 23, 25, 26, 27, 32 and 33, each a member of `CRITICAL_PINS`:
unlike the safing pass, the peripheral-shutdown trace does name
critical-set pins. -/
theorem disablePeripherals_detaches_critical (s : PeriphState) :
    (Ev.ledcDetachEv 22 ∈ (disablePeripherals s).2 ∧ isCriticalPin 22 = true)
    ∧ (Ev.ledcDetachEv 23 ∈ (disablePeripherals s).2 ∧ isCriticalPin 23 = true)
    ∧ (Ev.ledcDetachEv 25 ∈ (disablePeripherals s).2 ∧ isCriticalPin 25 = true)
    ∧ (Ev.ledcDetachEv 26 ∈ (disablePeripherals s).2 ∧ isCriticalPin 26 = true)
    ∧ (Ev.ledcDetachEv 27 ∈ (disablePeripherals s).2 ∧ isCriticalPin 27 = true)
    ∧ (Ev.ledcDetachEv 32 ∈ (disablePeripherals s).2 ∧ isCriticalPin 32 = true)
    ∧ (Ev.ledcDetachEv 33 ∈ (disablePeripherals s).2
        ∧ isCriticalPin 33 = true) := by
  rw [disablePeripherals_snd]
  decide

/-- C10: the serial output of the safing pass does not depend on
`verboseMode`.  Two runs whose initial globals differ only in the
verbosity flag emit identical traces: `logMessage` gates printing solely
on the compile-time `LOG_LEVEL` constant and never reads `verboseMode`. -/
theorem secure_output_verbose_independent (v : Int → Bool) (g : Globals)
    (b : Bool) :
    (secureAllPins v { g with verboseMode := b }).2
      = (secureAllPins v g).2 := by
  rw [secureAllPins_snd, secureAllPins_snd]

/-- C8: the `v` / `V` console command flips exactly the `verboseMode`
boolean: the three run counters are unchanged and the emitted output
contains no hardware call of any kind. -/
theorem toggle_verbose_frame (g : Globals) :
    ((commandSwitch 'v' g).1.verboseMode = !g.verboseMode
      ∧ (commandSwitch 'v' g).1.safePins = g.safePins
      ∧ (commandSwitch 'v' g).1.specialPins = g.specialPins
      ∧ (commandSwitch 'v' g).1.skippedPins = g.skippedPins
      ∧ (commandSwitch 'v' g).2.all (fun e => !(isHardwareCall e)) = true)
    ∧ ((commandSwitch 'V' g).1.verboseMode = !g.verboseMode
      ∧ (commandSwitch 'V' g).1.safePins = g.safePins
      ∧ (commandSwitch 'V' g).1.specialPins = g.specialPins
      ∧ (commandSwitch 'V' g).1.skippedPins = g.skippedPins
      ∧ (commandSwitch 'V' g).2.all (fun e => !(isHardwareCall e)) = true) := by
  exact ⟨⟨rfl, rfl, rfl, rfl, rfl⟩, ⟨rfl, rfl, rfl, rfl, rfl⟩⟩

lemma securePinEvents_printlns (v : Int → Bool) (p : Int) :
    (securePinEvents v p).filterMap evPrintlnStr = [securePinLogLine v p] := by
  unfold securePinEvents securePinBody securePinLogLine
  split_ifs <;> rfl

lemma concatEvents_printlns (v : Int → Bool) : ∀ l : List Int,
    (concatEvents v l).filterMap evPrintlnStr
      = l.map (securePinLogLine v) := by
  intro l
  induction l with
  | nil => rfl
  | cons p rest ih =>
      simp only [concatEvents, List.filterMap_append, List.map_cons]
      rw [securePinEvents_printlns, ih]
      rfl

/-- C6: the safing-pass trace is the banner, the loop events, then the
footer; within the loop the sequence of per-pin log lines is exactly one
line per pin, indexed by `pinRange = [0, …, 48]`, which is strictly
increasing — so every pin is logged exactly once, in ascending order. -/
theorem secure_log_ascending (v : Int → Bool) :
    (secureAllPins v initGlobals).2
      = logMessage 1 "\n🔧 Securing GPIO pins..." ++ secureLoopEvents v
          ++ logMessage 1 " All pins secured"
    ∧ (secureLoopEvents v).filterMap evPrintlnStr
        = pinRange.map (securePinLogLine v)
    ∧ List.Pairwise (· < ·) pinRange := by
  refine ⟨secureAllPins_snd v initGlobals,
          concatEvents_printlns v pinRange, ?_⟩
  decide

/-- The five per-pin outcome strings named by the spec (§6). -/
def specOutcomes : List String :=
  ["Skip: Invalid GPIO", "Skip: Critical system pin", "INPUT (USB/UART)",
   "INPUT_PULLUP", "INPUT (High-Z)"]

/-- Modelled from the spec: a per-pin log line "of the form
`GPIO<NN>: <outcome>`" where NN is the zero-padded pin index and the
outcome is one of the five spec strings.  An arbitrary prefix `ws` is
allowed, so even a generous reading that ignores leading text before
`GPIO` is covered. -/
def specPinLineForm (s : String) : Prop :=
  ∃ ws : String, ∃ p ∈ List.range 49, ∃ o ∈ specOutcomes,
    s = ws ++ ("GPIO" ++ (fmt02 (Int.ofNat p) ++ (": " ++ o)))

/-- The five per-pin line shapes `secureAllPins` actually prints for a
pin `p` (two leading spaces; `Skip` placed before `GPIO<NN>`). -/
def codePinLineForms (p : Int) : List String :=
  ["  Skip GPIO" ++ fmt02 p ++ ": Invalid GPIO",
   "  Skip GPIO" ++ fmt02 p ++ ": Critical system pin",
   "  GPIO" ++ fmt02 p ++ ": INPUT (USB/UART)",
   "  GPIO" ++ fmt02 p ++ ": INPUT_PULLUP",
   "  GPIO" ++ fmt02 p ++ ": INPUT (High-Z)"]

set_option maxHeartbeats 1600000 in
/-- C7 counterexample: with every pin valid, the safing pass prints the
line `"  Skip GPIO22: Critical system pin"`, and that line is not of the
spec's claimed form `GPIO<NN>: <outcome>` for any prefix, any zero-padded
index in 0..48 and any of the five spec outcomes — the code places `Skip`
before `GPIO<NN>`, not after the colon. -/
theorem secure_pin_line_form_cex :
    Ev.serialPrintln "  Skip GPIO22: Critical system pin"
      ∈ (secureAllPins (fun _ => true) initGlobals).2
    ∧ ¬ specPinLineForm "  Skip GPIO22: Critical system pin" := by
  constructor
  · decide
  · intro h
    obtain ⟨ws, p, hp, o, ho, heq⟩ := h
    have hsuf : ("GPIO" ++ (fmt02 (Int.ofNat p) ++ (": " ++ o))).data
        <:+ ("  Skip GPIO22: Critical system pin" : String).data := by
      refine ⟨ws.data, ?_⟩
      have hd := congrArg String.data heq
      rw [String.data_append] at hd
      exact hd.symm
    have hall : ∀ p ∈ List.range 49, ∀ o ∈ specOutcomes,
        ¬ (("GPIO" ++ (fmt02 (Int.ofNat p) ++ (": " ++ o))).data
            <:+ ("  Skip GPIO22: Critical system pin" : String).data) := by
      decide
    exact hall p hp o ho hsuf

lemma concatEvents_println_forms (v : Int → Bool) (s : String) :
    ∀ l : List Int, Ev.serialPrintln s ∈ concatEvents v l →
      ∃ p ∈ l, s ∈ codePinLineForms p := by
  intro l
  induction l with
  | nil => simp [concatEvents]
  | cons p rest ih =>
      intro hmem
      rw [concatEvents, List.mem_append] at hmem
      rcases hmem with hmem | hmem
      · refine ⟨p, by simp, ?_⟩
        unfold securePinEvents securePinBody at hmem
        split_ifs at hmem <;>
          simp [logMessage, LOG_LEVEL] at hmem <;>
          simp [codePinLineForms, hmem]
      · obtain ⟨q, hq, hforms⟩ := ih hmem
        exact ⟨q, by simp [hq], hforms⟩

/-- C7 amended: every `Serial.println` line the safing-pass loop emits
is, for some pin index `n` in 0..48, one of the five forms actually
printed by the code: `"  Skip GPIO<NN>: Invalid GPIO"`,
`"  Skip GPIO<NN>: Critical system pin"`, `"  GPIO<NN>: INPUT (USB/UART)"`,
`"  GPIO<NN>: INPUT_PULLUP"`, `"  GPIO<NN>: INPUT (High-Z)"`,
with NN the zero-padded pin index. -/
theorem secure_pin_line_forms (v : Int → Bool) (s : String)
    (h : Ev.serialPrintln s ∈ secureLoopEvents v) :
    ∃ n ∈ List.range 49, s ∈ codePinLineForms (Int.ofNat n) := by
  obtain ⟨p, hp, hforms⟩ :=
    concatEvents_println_forms v s pinRange h
  have hp' : p ∈ (List.range 49).map (fun n : Nat => (n : Int)) := hp
  obtain ⟨n, hn, hnp⟩ := List.mem_map.mp hp'
  rw [← hnp] at hforms
  exact ⟨n, hn, hforms⟩

set_option maxHeartbeats 1600000 in
/-- Witness for `secure_pin_line_forms` at `v = (fun _ => true)` and the
pin-22 skip line. -/
theorem secure_pin_line_forms_witness :
    Ev.serialPrintln "  Skip GPIO22: Critical system pin"
      ∈ secureLoopEvents (fun _ => true)
    ∧ ∃ n ∈ List.range 49,
        "  Skip GPIO22: Critical system pin"
          ∈ codePinLineForms (Int.ofNat n) :=
  ⟨by decide,
   secure_pin_line_forms (fun _ => true)
     "  Skip GPIO22: Critical system pin" (by decide)⟩
